import Mathlib

/-!
kubernetes-mcp-server: parameter validation, tool handlers, toolset
initialisation and the transport supervisor

A shallow embedding of

* `pkg/kubernetes/server.go`   (`requiredParam`)
* `pkg/kubernetes/pods.go`     (`ListPods`)
* `pkg/kubernetes/services.go` (`ListServices`)
* `pkg/kubernetes/tools.go`    (`InitToolsets`)
* `cmd/kubernetes-mcp-server/main.go` (`createKubernetesClient`,
  `runStdioServer`, `runSSEServer`)

Go values of interface type are a tagged sum (`GoValue`), the type parameter of
a generic function is the record of what the function uses of the type
(`GoType`), Go errors are the two
error shapes `fmt.Errorf` builds (`GoError`), functions that return
`(value, error)` return a pair whose second component is an `Option GoError`
(`none` is Go's `nil`), and calls that leave the process (the client getter, the
remote list call, tool registration, starting a serve loop, writing a log line)
are recorded in an explicit trace that the function returns.
-/

namespace K8sMcp

/-! ## Go errors -/

/-- The two error values `fmt.Errorf` produces: a plain message
(`*fmt.wrapError` is not built when the format has no `%w`), and a message
together with the wrapped cause (format ending in `%w`). -/
inductive GoError where
  | errorString (s : String)
  | wrapError (msg : String) (err : GoError)
deriving DecidableEq, Repr

namespace GoError

/-- The `Error()` method. -/
def Error : GoError → String
  | errorString s => s
  | wrapError msg _ => msg

/-- The `Unwrap()` step used by `errors.Unwrap`. -/
def Unwrap : GoError → Option GoError
  | errorString _ => none
  | wrapError _ err => some err

end GoError

/-- `fmt.Errorf(format, a)` for a format `"<text>%s"` without `%w`. -/
def Errorf (text : String) (a : String) : GoError :=
  GoError.errorString (text ++ a)

/-- `fmt.Errorf(format, err)` for a format `"<text>%w"`: the message is the text
followed by the cause's message, and the cause stays reachable by `Unwrap`. -/
def ErrorfW (text : String) (err : GoError) : GoError :=
  GoError.wrapError (text ++ err.Error) err

/-! ## Go values held in `map[string]interface{}` -/

/-- A value of interface type.  `nil` is the nil interface (a JSON `null`);
`float64` carries the IEEE-754 binary64 bit pattern; `slice` and `map` are the
non-comparable shapes a decoded JSON array / object has. -/
inductive GoValue where
  | nil
  | string (s : String)
  | bool (b : Bool)
  | float64 (bits : Nat)
  | int (i : Int)
  | slice (xs : List GoValue)
  | map (kvs : List (String × GoValue))

namespace GoValue

/-- A binary64 bit pattern is a NaN: exponent all ones, mantissa non-zero. -/
def float64IsNaN (bits : Nat) : Bool :=
  (bits / 2 ^ 52) % 2 ^ 11 == 2047 && bits % 2 ^ 52 != 0

/-- Go's `==` on `float64`: a NaN equals nothing, the two zeros are equal,
otherwise the bit patterns agree. -/
def float64Eq (a b : Nat) : Bool :=
  !float64IsNaN a && !float64IsNaN b &&
    (a % 2 ^ 64 == b % 2 ^ 64 || (a % 2 ^ 63 == 0 && b % 2 ^ 63 == 0))

/-- Go's `==` on two interface values: the nil interface equals only itself,
values of different dynamic types differ, values of one basic type are compared
at that type.  (On two slices or two maps Go panics instead of answering; that
comparison does not arise against the nil interface, the only one
`requiredParam` makes at an interface type, and is given `false`.) -/
def interfaceEq : GoValue → GoValue → Bool
  | nil, nil => true
  | string a, string b => decide (a = b)
  | bool a, bool b => decide (a = b)
  | float64 a, float64 b => float64Eq a b
  | int a, int b => decide (a = b)
  | _, _ => false

end GoValue

/-- A comparable Go type, as far as the generic `requiredParam[T comparable]`
uses its type parameter: the carrier, the zero value (`var zero T`), what `%T`
prints for the zero value, whether the type is an interface type, the type
assertion `v.(T)` in its comma-ok form (`none`: not ok), `==` at the type, and
the conversion of a `T` to an interface value.  The two laws are Go's: the
assertion fails on the nil interface, and a value obtained by a type assertion
converts back to the interface value it came from. -/
structure GoType where
  denote : Type
  zero : denote
  typeName : String
  isInterface : Bool
  assert : GoValue → Option denote
  eq : denote → denote → Bool
  toValue : denote → GoValue
  assert_nil : assert GoValue.nil = none
  toValue_of_assert : ∀ v a, assert v = some a → toValue a = v

namespace GoType

/-- The type `string`. -/
@[reducible] def string : GoType where
  denote := String
  zero := ""
  typeName := "string"
  isInterface := false
  assert := fun v => match v with
    | GoValue.string s => some s
    | _ => none
  eq := fun a b => decide (a = b)
  toValue := GoValue.string
  assert_nil := rfl
  toValue_of_assert := by
    intro v a h
    cases v <;> simp at h
    rw [h]

/-- The type `bool`. -/
@[reducible] def bool : GoType where
  denote := Bool
  zero := false
  typeName := "bool"
  isInterface := false
  assert := fun v => match v with
    | GoValue.bool b => some b
    | _ => none
  eq := fun a b => decide (a = b)
  toValue := GoValue.bool
  assert_nil := rfl
  toValue_of_assert := by
    intro v a h
    cases v <;> simp at h
    rw [h]

/-- The type `float64`, a value being its bit pattern. -/
@[reducible] def float64 : GoType where
  denote := Nat
  zero := 0
  typeName := "float64"
  isInterface := false
  assert := fun v => match v with
    | GoValue.float64 x => some x
    | _ => none
  eq := GoValue.float64Eq
  toValue := GoValue.float64
  assert_nil := rfl
  toValue_of_assert := by
    intro v a h
    cases v <;> simp at h
    rw [h]

/-- The type `int`. -/
@[reducible] def int : GoType where
  denote := Int
  zero := 0
  typeName := "int"
  isInterface := false
  assert := fun v => match v with
    | GoValue.int i => some i
    | _ => none
  eq := fun a b => decide (a = b)
  toValue := GoValue.int
  assert_nil := rfl
  toValue_of_assert := by
    intro v a h
    cases v <;> simp at h
    rw [h]

/-- The interface type `any` (`interface{}`), comparable since Go 1.20: its
zero value is the nil interface, for which `%T` prints `<nil>`, and `v.(any)` is
ok for every non-nil `v`. -/
@[reducible] def any : GoType where
  denote := GoValue
  zero := GoValue.nil
  typeName := "<nil>"
  isInterface := true
  assert := fun v => match v with
    | GoValue.nil => none
    | w => some w
  eq := GoValue.interfaceEq
  toValue := fun v => v
  assert_nil := rfl
  toValue_of_assert := by
    intro v a h
    cases v <;> simp at h <;> rw [h]

/-- The dynamic type of the interface value `v` is `T`.  Only a non-interface
type is ever a dynamic type, and for such a `T` the assertion `v.(T)` is ok
exactly when the dynamic type of `v` is `T`. -/
def isDynTypeOf (T : GoType) (v : GoValue) : Bool :=
  !T.isInterface && (T.assert v).isSome

end GoType

/-! ## `mcp.CallToolRequest` and `mcp.CallToolResult` -/

/-- The `Params` of a tool call: the tool name and the argument map. -/
structure CallToolParams where
  Name : String
  Arguments : List (String × GoValue)

/-- A tool call request. -/
structure CallToolRequest where
  Params : CallToolParams

/-- The map index `m[p]` in its comma-ok form: the stored value and `true`, or
the nil interface and `false` when the key is absent. -/
def mapIndex (m : List (String × GoValue)) (p : String) : GoValue × Bool :=
  match m.lookup p with
  | some v => (v, true)
  | none => (GoValue.nil, false)

/-! ## `pkg/kubernetes/server.go` -/

/-- The generic `requiredParam[T]`: presence check, then type assertion, then
comparison with the zero value. -/
def requiredParam (T : GoType) (r : CallToolRequest) (p : String) :
    T.denote × Option GoError :=
  match mapIndex r.Params.Arguments p with
  | (_, false) => (T.zero, some (Errorf "missing required parameter: " p))
  | (v, true) =>
    match T.assert v with
    | none =>
      (T.zero, some (GoError.errorString
        ("parameter " ++ p ++ " is not of type " ++ T.typeName)))
    | some a =>
      if T.eq a T.zero then
        (T.zero, some (Errorf "missing required parameter: " p))
      else
        (a, none)

/-- The result of a tool call: its text content and the `IsError` mark. -/
structure CallToolResult where
  Content : List String
  IsError : Bool
deriving DecidableEq, Repr

/-- `mcp.NewToolResultText`: one text content, not an error. -/
def NewToolResultText (text : String) : CallToolResult :=
  { Content := [text], IsError := false }

/-- `mcp.NewToolResultError`: one text content, marked as an error. -/
def NewToolResultError (text : String) : CallToolResult :=
  { Content := [text], IsError := true }

/-- `mcp.ToolAnnotation`, the two fields the tools set. -/
structure ToolAnnotation where
  Title : String
  ReadOnlyHint : Bool
deriving DecidableEq, Repr

/-- One property of a tool's input schema (`mcp.WithString` with its options). -/
structure ToolProperty where
  Name : String
  Kind : String
  Required : Bool
  Description : String
deriving DecidableEq, Repr

/-- `mcp.Tool` as `mcp.NewTool` builds it from the options used here. -/
structure Tool where
  Name : String
  Description : String
  Annotations : ToolAnnotation
  Properties : List ToolProperty
deriving DecidableEq, Repr

/-! ## The Kubernetes client, as far as the handlers use it -/

/-- A pod listing, kept abstract: the handler only marshals it, so it is
identified with what `json.Marshal` makes of it. -/
structure PodList where
  json : Except GoError String

/-- A service listing, kept abstract in the same way. -/
structure ServiceList where
  json : Except GoError String

/-- `json.Marshal` on a pod listing. -/
def marshalPods (l : PodList) : Except GoError String := l.json

/-- `json.Marshal` on a service listing. -/
def marshalServices (l : ServiceList) : Except GoError String := l.json

/-- The client set: `CoreV1().Pods(ns).List` and `CoreV1().Services(ns).List`
as functions of the namespace. -/
structure Clientset where
  listPods : String → Except GoError PodList
  listServices : String → Except GoError ServiceList

/-- `context.Context`; the handlers only pass it on. -/
structure Context where
  done : Bool

/-- The type `GetClientFn`. -/
abbrev GetClientFn := Context → Except GoError Clientset

/-- A call a handler makes outside the process. -/
inductive RemoteCall where
  | getClient
  | listPods (ns : String)
  | listServices (ns : String)
deriving DecidableEq, Repr

/-- What a handler returns, `(*mcp.CallToolResult, error)`, together with the
calls it made, in order. -/
structure HandlerOutcome where
  result : Option CallToolResult
  err : Option GoError
  calls : List RemoteCall
deriving DecidableEq, Repr

/-- The type `server.ToolHandlerFunc`. -/
abbrev ToolHandlerFunc := Context → CallToolRequest → HandlerOutcome

/-! ## `pkg/kubernetes/pods.go` -/

/-- The tool descriptor of `ListPods`. -/
def listPodsTool : Tool :=
  { Name := "list_pods"
    Description := "List all pods in a namespace"
    Annotations := { Title := "List Pods", ReadOnlyHint := true }
    Properties := [{ Name := "namespace", Kind := "string", Required := true,
                     Description := "Namespace to list pods in" }] }

/-- The handler closure of `ListPods`. -/
def listPodsHandler (getClient : GetClientFn) : ToolHandlerFunc :=
  fun ctx request =>
    match requiredParam GoType.string request "namespace" with
    | (_, some err) => ⟨some (NewToolResultError err.Error), none, []⟩
    | (ns, none) =>
      match getClient ctx with
      | .error err =>
        ⟨none, some (ErrorfW "failed to get Kubernetes client: " err), [.getClient]⟩
      | .ok client =>
        match client.listPods ns with
        | .error err =>
          ⟨none, some (ErrorfW "failed to list pods: " err), [.getClient, .listPods ns]⟩
        | .ok pods =>
          match marshalPods pods with
          | .error err =>
            ⟨none, some (ErrorfW "failed to marshal pods: " err),
              [.getClient, .listPods ns]⟩
          | .ok r => ⟨some (NewToolResultText r), none, [.getClient, .listPods ns]⟩

/-- `ListPods`: the tool and its handler. -/
def ListPods (getClient : GetClientFn) : Tool × ToolHandlerFunc :=
  (listPodsTool, listPodsHandler getClient)

/-! ## `pkg/kubernetes/services.go` -/

/-- The tool descriptor of `ListServices`. -/
def listServicesTool : Tool :=
  { Name := "list_services"
    Description := "List all services in a namespace"
    Annotations := { Title := "List Services", ReadOnlyHint := true }
    Properties := [{ Name := "namespace", Kind := "string", Required := true,
                     Description := "Namespace to list services in" }] }

/-- The handler closure of `ListServices`. -/
def listServicesHandler (getClient : GetClientFn) : ToolHandlerFunc :=
  fun ctx request =>
    match requiredParam GoType.string request "namespace" with
    | (_, some err) => ⟨some (NewToolResultError err.Error), none, []⟩
    | (ns, none) =>
      match getClient ctx with
      | .error err =>
        ⟨none, some (ErrorfW "failed to get Kubernetes client: " err), [.getClient]⟩
      | .ok client =>
        match client.listServices ns with
        | .error err =>
          ⟨none, some (ErrorfW "failed to list services: " err),
            [.getClient, .listServices ns]⟩
        | .ok services =>
          match marshalServices services with
          | .error err =>
            ⟨none, some (ErrorfW "failed to marshal services: " err),
              [.getClient, .listServices ns]⟩
          | .ok r =>
            ⟨some (NewToolResultText r), none, [.getClient, .listServices ns]⟩

/-- `ListServices`: the tool and its handler. -/
def ListServices (getClient : GetClientFn) : Tool × ToolHandlerFunc :=
  (listServicesTool, listServicesHandler getClient)

/-! ## Package `pkg/toolsets`

The package is used by `tools.go` and `main.go`; its sources are not under
`src/`, so its data model and operations follow the specification
(sections 3, 4.1, 4.2 and 6). -/

/-- Modelled from the spec: the Tool Unit of the absent package `pkg/toolsets`,
"an opaque pairing of a tool descriptor and its handler function". -/
structure ServerTool where
  tool : Tool
  handler : ToolHandlerFunc

/-- Modelled from the spec: `toolsets.NewServerTool` of the absent package
`pkg/toolsets`, pairing the descriptor and the handler it is given. -/
def NewServerTool (th : Tool × ToolHandlerFunc) : ServerTool :=
  { tool := th.1, handler := th.2 }

/-- Modelled from the spec: the Toolset of the absent package `pkg/toolsets`:
name, description, read tools, write tools, enabled flag. -/
structure Toolset where
  name : String
  description : String
  readTools : List ServerTool
  writeTools : List ServerTool
  enabled : Bool

/-- Modelled from the spec: `toolsets.NewToolset` of the absent package
`pkg/toolsets`: no tools, "enabled: bool (default false)". -/
def NewToolset (name description : String) : Toolset :=
  { name := name, description := description, readTools := [], writeTools := [],
    enabled := false }

/-- Modelled from the spec: `addReadTools` of the absent package `pkg/toolsets`:
"append to the respective sequence, preserving call order; returns the Toolset
itself". -/
def Toolset.AddReadTools (ts : Toolset) (units : List ServerTool) : Toolset :=
  { ts with readTools := ts.readTools ++ units }

/-- Modelled from the spec: `addWriteTools` of the absent package
`pkg/toolsets`, as `addReadTools` on the write sequence. -/
def Toolset.AddWriteTools (ts : Toolset) (units : List ServerTool) : Toolset :=
  { ts with writeTools := ts.writeTools ++ units }

/-- Modelled from the spec: the Toolset Registry of the absent package
`pkg/toolsets`: the toolsets in insertion order, keyed by name, and the
read-only flag. -/
structure ToolsetGroup where
  toolsets : List Toolset
  readOnly : Bool

/-- Modelled from the spec: `toolsets.NewToolsetGroup` of the absent package
`pkg/toolsets`: an empty registry "created once at startup from the read-only
flag". -/
def NewToolsetGroup (readOnly : Bool) : ToolsetGroup :=
  { toolsets := [], readOnly := readOnly }

/-- Modelled from the spec: whether a toolset of that name is registered
(absent package `pkg/toolsets`). -/
def ToolsetGroup.hasToolset (tsg : ToolsetGroup) (name : String) : Bool :=
  tsg.toolsets.any (fun ts => ts.name == name)

/-- Modelled from the spec: `addToolset` of the absent package `pkg/toolsets`:
"registers a Toolset under its name"; a name collision is "detected and
signaled as a configuration error, not silently overwritten" (the spec fixes no
message; `InitToolsets` drops the second component). -/
def ToolsetGroup.AddToolset (tsg : ToolsetGroup) (ts : Toolset) :
    ToolsetGroup × Option GoError :=
  if tsg.hasToolset ts.name then
    (tsg, some (Errorf "toolset already registered: " ts.name))
  else
    ({ tsg with toolsets := tsg.toolsets ++ [ts] }, none)

/-- Modelled from the spec: `enableToolsets` of the absent package
`pkg/toolsets`: the sentinel "all" enables every registered toolset, any other
name the matching one; a name matching no registered toolset "fails the whole
call with an unknown toolset error that names the offending value" and nothing
is enabled (the spec fixes no exact message; no statement below depends on
it except through `Error`). -/
def ToolsetGroup.EnableToolsets (tsg : ToolsetGroup) (names : List String) :
    ToolsetGroup × Option GoError :=
  match names.find? (fun n => n != "all" && !tsg.hasToolset n) with
  | some bad => (tsg, some (Errorf "unknown toolset: " bad))
  | none =>
    ({ tsg with
        toolsets := tsg.toolsets.map (fun ts =>
          if names.contains "all" || names.contains ts.name then
            { ts with enabled := true }
          else ts) },
      none)

/-- Modelled from the spec: the active tools of one toolset (absent package
`pkg/toolsets`): nothing when disabled, else read tools before write tools,
the write tools left out under the read-only policy. -/
def Toolset.activeTools (readOnly : Bool) (ts : Toolset) : List ServerTool :=
  if ts.enabled then
    ts.readTools ++ (if readOnly then [] else ts.writeTools)
  else []

/-- Modelled from the spec: `collectActiveTools` of the absent package
`pkg/toolsets`: "in Toolset-registration order then read-before-write order
within a Toolset, every Tool Unit belonging to an enabled Toolset, excluding
write-category units when the Registry's readOnly flag is set". -/
def ToolsetGroup.CollectActiveTools (tsg : ToolsetGroup) : List ServerTool :=
  tsg.toolsets.flatMap (Toolset.activeTools tsg.readOnly)

/-- Something `runStdioServer` / `runSSEServer` does that is visible outside the
function, in order of occurrence. -/
inductive Effect where
  | addTool (name : String)
  | goListen
  | goStart (addr : String)
  | stderr (s : String)
  | logInfo (s : String)
  | nilDeref
deriving DecidableEq, Repr

/-- Modelled from the spec: `RegisterTools` of the absent package
`pkg/toolsets`: "register(toolDescriptor, handler) for each Tool Unit returned
by collectActiveTools()", in that order. -/
def ToolsetGroup.RegisterTools (tsg : ToolsetGroup) : List Effect :=
  tsg.CollectActiveTools.map (fun st => Effect.addTool st.tool.Name)

/-! ## `pkg/kubernetes/tools.go` -/

/-- The variable `DefaultToolsets`. -/
def DefaultToolsets : List String := ["all"]

/-- The first part of `InitToolsets`: the group with the two toolsets added,
before `EnableToolsets` is called. -/
def initRegistry (readonly : Bool) (getClient : GetClientFn) : ToolsetGroup :=
  let tsg := NewToolsetGroup readonly
  let pods := (NewToolset "pods" "Kubernetes Pod related tools").AddReadTools
    [NewServerTool (ListPods getClient)]
  let services := (NewToolset "services" "Kubernetes Service related tools").AddReadTools
    [NewServerTool (ListServices getClient)]
  let tsg := (tsg.AddToolset pods).1
  let tsg := (tsg.AddToolset services).1
  tsg

/-- `InitToolsets`: `(nil, err)` when `EnableToolsets` fails, `(tsg, nil)`
otherwise. -/
def InitToolsets (passedToolsets : List String) (readonly : Bool)
    (getClient : GetClientFn) : Option ToolsetGroup × Option GoError :=
  match (initRegistry readonly getClient).EnableToolsets passedToolsets with
  | (_, some err) => (none, some err)
  | (tsg, none) => (some tsg, none)

/-! ## `cmd/kubernetes-mcp-server/main.go` -/

/-- The REST configuration `clientcmd.BuildConfigFromFlags` yields, opaque. -/
structure RestConfig where
  host : String

/-- What the process finds around it when building the client: the outcome of
`clientcmd.BuildConfigFromFlags` on the resolved kubeconfig path and of
`gok8s.NewForConfig`. -/
structure ProcEnv where
  BuildConfigFromFlags : Except GoError RestConfig
  NewForConfig : RestConfig → Except GoError Clientset

/-- `createKubernetesClient`, after the kubeconfig path is resolved: both
failures are wrapped with context. -/
def createKubernetesClient (env : ProcEnv) : Except GoError Clientset :=
  match env.BuildConfigFromFlags with
  | .error err => .error (ErrorfW "failed to build kubeconfig: " err)
  | .ok config =>
    match env.NewForConfig config with
    | .error err => .error (ErrorfW "failed to create Kubernetes client: " err)
    | .ok clientset => .ok clientset

/-- The struct `runConfig` (the logger shows up as `Effect.logInfo`). -/
structure runConfig where
  readOnly : Bool
  enabledToolsets : List String

/-- The case the `select` statement commits to: `<-ctx.Done()`, or a receive
from `errC` of the value the serve loop sent. -/
inductive SelectCase where
  | ctxDone
  | errC (err : Option GoError)
deriving DecidableEq, Repr

/-- What a run returns and what it did. -/
structure RunOutcome where
  err : Option GoError
  effects : List Effect
deriving DecidableEq, Repr

/-- `runStdioServer`; `sel` is the case its `select` commits to. -/
def runStdioServer (env : ProcEnv) (cfg : runConfig) (sel : SelectCase) : RunOutcome :=
  match createKubernetesClient env with
  | .error err => ⟨some err, []⟩
  | .ok clientset =>
    let getClient : GetClientFn := fun _ => .ok clientset
    match InitToolsets cfg.enabledToolsets cfg.readOnly getClient with
    | (_, some err) => ⟨some (ErrorfW "failed to initialize toolsets: " err), []⟩
    | (none, none) => ⟨none, [.nilDeref]⟩
    | (some toolsets, none) =>
      let started := toolsets.RegisterTools ++
        [.goListen, .stderr "Kubernetes MCP Server is running on stdio\n"]
      match sel with
      | .ctxDone =>
        ⟨none, started ++ [.logInfo "Received termination signal, shutting down..."]⟩
      | .errC (some err) => ⟨some (ErrorfW "error in server: " err), started⟩
      | .errC none => ⟨none, started⟩

/-- `runSSEServer`; `sel` is the case its `select` commits to. -/
def runSSEServer (env : ProcEnv) (cfg : runConfig) (sel : SelectCase) : RunOutcome :=
  match createKubernetesClient env with
  | .error err => ⟨some err, []⟩
  | .ok clientset =>
    let getClient : GetClientFn := fun _ => .ok clientset
    match InitToolsets cfg.enabledToolsets cfg.readOnly getClient with
    | (_, some err) => ⟨some (ErrorfW "failed to initialize toolsets: " err), []⟩
    | (none, none) => ⟨none, [.nilDeref]⟩
    | (some toolsets, none) =>
      let started := toolsets.RegisterTools ++
        [.goStart ":8080", .stderr "Kubernetes MCP Server is running on SSE\n"]
      match sel with
      | .ctxDone =>
        ⟨none, started ++ [.logInfo "Received termination signal, shutting down..."]⟩
      | .errC (some err) => ⟨some (ErrorfW "error in server: " err), started⟩
      | .errC none => ⟨none, started⟩

/-- Startup has succeeded: the client was built and the toolsets initialised,
so the run reaches its `select`. -/
def startupSucceeded (env : ProcEnv) (cfg : runConfig) : Bool :=
  match createKubernetesClient env with
  | .error _ => false
  | .ok clientset =>
    match InitToolsets cfg.enabledToolsets cfg.readOnly (fun _ => .ok clientset) with
    | (some _, none) => true
    | _ => false

/-- What the foreground `select` can see when it is evaluated: whether
`ctx.Done()` is closed, and the content of the one-slot channel `errC`
(`none`: the serve loop has not sent yet). -/
structure WaitState where
  ctxDone : Bool
  errC : Option (Option GoError)
deriving DecidableEq, Repr

/-- The cases of the `select` that are ready in a state; Go commits to any one
of them. -/
def readyCases (w : WaitState) : List SelectCase :=
  (if w.ctxDone then [SelectCase.ctxDone] else []) ++
    (match w.errC with
     | some e => [SelectCase.errC e]
     | none => [])

/-! ## Concrete inputs -/

/-- A client whose list calls succeed with a fixed payload. -/
def okClient : Clientset :=
  { listPods := fun _ => .ok ⟨.ok "pods-json"⟩
    listServices := fun _ => .ok ⟨.ok "services-json"⟩ }

/-- A client whose list calls fail. -/
def failingClient : Clientset :=
  { listPods := fun _ => .error (GoError.errorString "connection refused")
    listServices := fun _ => .error (GoError.errorString "connection refused") }

/-- An environment in which the client is built. -/
def okEnv : ProcEnv :=
  { BuildConfigFromFlags := .ok ⟨"https://127.0.0.1:6443"⟩
    NewForConfig := fun _ => .ok okClient }

/-- A request with the given arguments. -/
def mkRequest (name : String) (args : List (String × GoValue)) : CallToolRequest :=
  { Params := { Name := name, Arguments := args } }

/-! ## Lemmas about `requiredParam` -/

/-- The two messages of `requiredParam` never coincide: one starts with `m`,
the other with `p`. -/
theorem missing_ne_mismatch (p tn : String) :
    "missing required parameter: " ++ p ≠ "parameter " ++ p ++ " is not of type " ++ tn := by
  intro h
  have h2 := congrArg (fun s => s.data.head?) h
  simp [String.data_append] at h2

/-- Against the nil interface, `==` on interface values holds for nil only: the
comparison `requiredParam` makes at `any` never meets two slices or two maps. -/
theorem interfaceEq_nil (a : GoValue) :
    GoValue.interfaceEq a GoValue.nil = true ↔ a = GoValue.nil := by
  cases a <;> simp [GoValue.interfaceEq]

/-- The key is absent: the missing-parameter error. -/
theorem requiredParam_absent (T : GoType) (r : CallToolRequest) (p : String)
    (h : r.Params.Arguments.lookup p = none) :
    requiredParam T r p = (T.zero, some (Errorf "missing required parameter: " p)) := by
  simp [requiredParam, mapIndex, h]

/-- The key is present with a value that fails the type assertion: the
type-mismatch error. -/
theorem requiredParam_mismatch (T : GoType) (r : CallToolRequest) (p : String) (v : GoValue)
    (h : r.Params.Arguments.lookup p = some v) (ht : T.assert v = none) :
    requiredParam T r p = (T.zero, some (GoError.errorString
      ("parameter " ++ p ++ " is not of type " ++ T.typeName))) := by
  simp [requiredParam, mapIndex, h, ht]

/-- The key is present with a value that passes the type assertion and equals
the zero value: the missing-parameter error. -/
theorem requiredParam_zero (T : GoType) (r : CallToolRequest) (p : String) (v : GoValue)
    (a : T.denote) (h : r.Params.Arguments.lookup p = some v) (ha : T.assert v = some a)
    (hz : T.eq a T.zero = true) :
    requiredParam T r p = (T.zero, some (Errorf "missing required parameter: " p)) := by
  simp [requiredParam, mapIndex, h, ha, hz]

/-- The key is present with a value that passes the type assertion and differs
from the zero value: that value. -/
theorem requiredParam_ok (T : GoType) (r : CallToolRequest) (p : String) (v : GoValue)
    (a : T.denote) (h : r.Params.Arguments.lookup p = some v) (ha : T.assert v = some a)
    (hz : T.eq a T.zero = false) :
    requiredParam T r p = (a, none) := by
  simp [requiredParam, mapIndex, h, ha, hz]

/-- The four cases of `requiredParam`, as a case split on the argument map. -/
theorem requiredParam_cases (T : GoType) (r : CallToolRequest) (p : String) :
    (r.Params.Arguments.lookup p = none ∧
      requiredParam T r p = (T.zero, some (Errorf "missing required parameter: " p))) ∨
    (∃ v, r.Params.Arguments.lookup p = some v ∧ T.assert v = none ∧
      requiredParam T r p = (T.zero, some (GoError.errorString
        ("parameter " ++ p ++ " is not of type " ++ T.typeName)))) ∨
    (∃ v a, r.Params.Arguments.lookup p = some v ∧ T.assert v = some a ∧
      T.eq a T.zero = true ∧
      requiredParam T r p = (T.zero, some (Errorf "missing required parameter: " p))) ∨
    (∃ v a, r.Params.Arguments.lookup p = some v ∧ T.assert v = some a ∧
      T.eq a T.zero = false ∧ requiredParam T r p = (a, none)) := by
  cases h : r.Params.Arguments.lookup p with
  | none => exact Or.inl ⟨rfl, requiredParam_absent T r p h⟩
  | some v =>
    cases ht : T.assert v with
    | none => exact Or.inr (Or.inl ⟨v, rfl, ht, requiredParam_mismatch T r p v h ht⟩)
    | some a =>
      cases hz : T.eq a T.zero with
      | true =>
        exact Or.inr (Or.inr (Or.inl ⟨v, a, rfl, ht, hz, requiredParam_zero T r p v a h ht hz⟩))
      | false =>
        exact Or.inr (Or.inr (Or.inr ⟨v, a, rfl, ht, hz, requiredParam_ok T r p v a h ht hz⟩))

/-- When `requiredParam` reports the missing-parameter message. -/
theorem requiredParam_missing_iff (T : GoType) (r : CallToolRequest) (p : String) :
    (requiredParam T r p).2.map GoError.Error = some ("missing required parameter: " ++ p) ↔
      (r.Params.Arguments.lookup p = none ∨
        ∃ v a, r.Params.Arguments.lookup p = some v ∧ T.assert v = some a ∧
          T.eq a T.zero = true) := by
  rcases requiredParam_cases T r p with
    ⟨h, e⟩ | ⟨v, h, ht, e⟩ | ⟨v, a, h, ha, hz, e⟩ | ⟨v, a, h, ha, hz, e⟩
  · simp [e, h, Errorf, GoError.Error]
  · constructor
    · intro hm
      rw [e] at hm
      simp only [Option.map_some', GoError.Error, Option.some.injEq] at hm
      exact absurd hm.symm (missing_ne_mismatch p T.typeName)
    · rintro (h0 | ⟨w, b, hw, hb, _⟩)
      · rw [h] at h0
        cases h0
      · rw [h] at hw
        cases hw
        rw [ht] at hb
        cases hb
  · constructor
    · intro _
      exact Or.inr ⟨v, a, h, ha, hz⟩
    · intro _
      simp [e, Errorf, GoError.Error]
  · constructor
    · intro hm
      rw [e] at hm
      cases hm
    · rintro (h0 | ⟨w, b, hw, hb, hbz⟩)
      · rw [h] at h0
        cases h0
      · rw [h] at hw
        cases hw
        rw [ha] at hb
        cases hb
        rw [hz] at hbz
        cases hbz

/-- When `requiredParam` succeeds. -/
theorem requiredParam_ok_iff (T : GoType) (r : CallToolRequest) (p : String) :
    (requiredParam T r p).2 = none ↔
      ∃ v a, r.Params.Arguments.lookup p = some v ∧ T.assert v = some a ∧
        T.eq a T.zero = false := by
  rcases requiredParam_cases T r p with
    ⟨h, e⟩ | ⟨v, h, ht, e⟩ | ⟨v, a, h, ha, hz, e⟩ | ⟨v, a, h, ha, hz, e⟩
  · simp [e, h]
  · constructor
    · intro hm
      rw [e] at hm
      cases hm
    · rintro ⟨w, b, hw, hb, _⟩
      rw [h] at hw
      cases hw
      rw [ht] at hb
      cases hb
  · constructor
    · intro hm
      rw [e] at hm
      cases hm
    · rintro ⟨w, b, hw, hb, hbz⟩
      rw [h] at hw
      cases hw
      rw [ha] at hb
      cases hb
      rw [hz] at hbz
      cases hbz
  · constructor
    · intro _
      exact ⟨v, a, h, ha, hz⟩
    · intro _
      rw [e]

/-- Every failure of `requiredParam` returns the zero value. -/
theorem requiredParam_err_zero (T : GoType) (r : CallToolRequest) (p : String) :
    (requiredParam T r p).2 = none ∨ (requiredParam T r p).1 = T.zero := by
  rcases requiredParam_cases T r p with
    ⟨_, e⟩ | ⟨_, _, _, e⟩ | ⟨_, _, _, _, _, e⟩ | ⟨_, _, _, _, _, e⟩ <;>
    simp [e]

/-- For a non-interface type, passing the type assertion and being of that
dynamic type are the same. -/
theorem isDynTypeOf_iff (T : GoType) (hT : T.isInterface = false) (v : GoValue) :
    T.isDynTypeOf v = true ↔ ∃ a, T.assert v = some a := by
  simp [GoType.isDynTypeOf, hT, Option.isSome_iff_exists]

/-! ## Claims about `requiredParam` and the handlers -/

/-- C1: a call to the `list_pods` or `list_services` handler whose arguments do
not contain the key "namespace" returns a non-nil result marked as an error with
the text "missing required parameter: namespace", a nil handler error, and an
empty trace of calls: neither the client getter nor the remote list call is
invoked. -/
theorem C1_missing_namespace_no_remote_call (getClient : GetClientFn) (ctx : Context)
    (request : CallToolRequest)
    (h : request.Params.Arguments.lookup "namespace" = none) :
    (ListPods getClient).2 ctx request =
        ⟨some ⟨["missing required parameter: namespace"], true⟩, none, []⟩ ∧
      (ListServices getClient).2 ctx request =
        ⟨some ⟨["missing required parameter: namespace"], true⟩, none, []⟩ := by
  have e := requiredParam_absent GoType.string request "namespace" h
  constructor
  · simp only [ListPods, listPodsHandler, e]
    rfl
  · simp only [ListServices, listServicesHandler, e]
    rfl

/-- Witness of C1: the request without arguments, with a getter that would
succeed. -/
theorem C1_missing_namespace_witness :
    (mkRequest "list_pods" []).Params.Arguments.lookup "namespace" = none ∧
      (ListPods (fun _ => .ok okClient)).2 ⟨false⟩ (mkRequest "list_pods" []) =
        ⟨some ⟨["missing required parameter: namespace"], true⟩, none, []⟩ ∧
      (ListServices (fun _ => .ok okClient)).2 ⟨false⟩ (mkRequest "list_pods" []) =
        ⟨some ⟨["missing required parameter: namespace"], true⟩, none, []⟩ :=
  ⟨rfl, C1_missing_namespace_no_remote_call (fun _ => .ok okClient) ⟨false⟩
    (mkRequest "list_pods" []) rfl⟩

/-- C2, as the code has it: `requiredParam[T](r, p)` fails with the message
"missing required parameter: <p>" if and only if `p` is absent from the argument
map or the argument stored under `p` passes the type assertion to `T` with a
value equal (Go `==`) to the zero value of `T`; every failure returns the zero
value of `T`; for a non-interface `T` the second case is: the argument is of
dynamic type `T` and equals the zero value; for `T = string` it is the empty
string; a stored nil, which fails the assertion at every `T`, never gives this
message. -/
theorem C2_missing_iff_absent_or_asserted_zero (T : GoType) (r : CallToolRequest)
    (p : String) :
    ((requiredParam T r p).2.map GoError.Error = some ("missing required parameter: " ++ p) ↔
      (r.Params.Arguments.lookup p = none ∨
        ∃ v a, r.Params.Arguments.lookup p = some v ∧ T.assert v = some a ∧
          T.eq a T.zero = true)) ∧
    ((requiredParam T r p).2 = none ∨ (requiredParam T r p).1 = T.zero) ∧
    (T.isInterface = false →
      ((requiredParam T r p).2.map GoError.Error
          = some ("missing required parameter: " ++ p) ↔
        (r.Params.Arguments.lookup p = none ∨
          ∃ v a, r.Params.Arguments.lookup p = some v ∧ T.isDynTypeOf v = true ∧
            T.assert v = some a ∧ T.eq a T.zero = true))) ∧
    ((requiredParam GoType.string r p).2.map GoError.Error
        = some ("missing required parameter: " ++ p) ↔
      (r.Params.Arguments.lookup p = none ∨
        r.Params.Arguments.lookup p = some (GoValue.string ""))) ∧
    (r.Params.Arguments.lookup p = some GoValue.nil →
      (requiredParam T r p).2.map GoError.Error
        ≠ some ("missing required parameter: " ++ p)) := by
  refine ⟨requiredParam_missing_iff T r p, requiredParam_err_zero T r p, ?_, ?_, ?_⟩
  · intro hT
    rw [requiredParam_missing_iff T r p]
    constructor
    · rintro (h | ⟨v, a, h, ha, hz⟩)
      · exact Or.inl h
      · exact Or.inr ⟨v, a, h, (isDynTypeOf_iff T hT v).2 ⟨a, ha⟩, ha, hz⟩
    · rintro (h | ⟨v, a, h, _, ha, hz⟩)
      · exact Or.inl h
      · exact Or.inr ⟨v, a, h, ha, hz⟩
  · rw [requiredParam_missing_iff GoType.string r p]
    constructor
    · rintro (h | ⟨v, a, h, ha, hz⟩)
      · exact Or.inl h
      · have hv := GoType.string.toValue_of_assert v a ha
        have : a = "" := by simpa using hz
        subst this
        rw [← hv] at h
        exact Or.inr h
    · rintro (h | h)
      · exact Or.inl h
      · exact Or.inr ⟨GoValue.string "", "", h, rfl, by simp⟩
  · intro hnil hm
    rcases (requiredParam_missing_iff T r p).1 hm with h | ⟨v, a, h, ha, _⟩
    · rw [hnil] at h
      cases h
    · rw [hnil] at h
      cases h
      rw [T.assert_nil] at ha
      cases ha

/-- Witness of C2: the empty string stored under "namespace", asked for as a
string, a non-interface type. -/
theorem C2_missing_witness :
    (requiredParam GoType.string (mkRequest "list_pods" [("namespace", GoValue.string "")])
        "namespace").2.map GoError.Error
      = some ("missing required parameter: " ++ "namespace") :=
  ((C2_missing_iff_absent_or_asserted_zero GoType.string
      (mkRequest "list_pods" [("namespace", GoValue.string "")]) "namespace").2.2.1 rfl).2
    (Or.inr ⟨GoValue.string "", "", rfl, rfl, rfl, rfl⟩)

/-- Counterexample to C2 as stated: at `T = any` with a nil stored under "p",
the stored argument is the zero value of `any`, yet the call fails with the
type-mismatch message "parameter p is not of type <nil>", not with the
missing-parameter message. -/
theorem C2_counterexample_any_nil :
    (mkRequest "t" [("p", GoValue.nil)]).Params.Arguments.lookup "p"
        = some (GoType.any.toValue GoType.any.zero) ∧
      GoType.any.eq GoType.any.zero GoType.any.zero = true ∧
      (requiredParam GoType.any (mkRequest "t" [("p", GoValue.nil)]) "p").2
        = some (GoError.errorString "parameter p is not of type <nil>") ∧
      (requiredParam GoType.any (mkRequest "t" [("p", GoValue.nil)]) "p").2.map GoError.Error
        ≠ some "missing required parameter: p" := by
  refine ⟨rfl, rfl, by decide, by decide⟩

/-- C3, as the code has it: when `p` is present in the argument map with a
value that fails the type assertion to `T`, `requiredParam[T](r, p)` fails with
"parameter <p> is not of type <X>", `X` being what `%T` prints for the zero
value of `T`, and this is not the missing-parameter message.  A present nil
fails the assertion for every `T`; for a non-interface `T` so does every value
whose dynamic type is not `T`; for `T = string` so does a number, and `%T`
prints "string" (for `T = any`: "<nil>").  The presence check comes first (an
absent key gives the missing-parameter error although the type assertion on the
nil `m[p]` would fail too) and the type check comes before the zero-value check
(`false`, the zero value of `bool`, asked for as a string gives the
type-mismatch error). -/
theorem C3_assertion_failure_is_type_mismatch (T : GoType) (r : CallToolRequest)
    (p : String) (v : GoValue)
    (hv : r.Params.Arguments.lookup p = some v) (ht : T.assert v = none) :
    requiredParam T r p = (T.zero, some (GoError.errorString
        ("parameter " ++ p ++ " is not of type " ++ T.typeName))) ∧
      (requiredParam T r p).2.map GoError.Error
        ≠ some ("missing required parameter: " ++ p) ∧
      T.assert GoValue.nil = none ∧
      (T.isInterface = false → ∀ w, T.isDynTypeOf w = false → T.assert w = none) ∧
      (∀ bits, GoType.string.assert (GoValue.float64 bits) = none) ∧
      GoType.string.typeName = "string" ∧
      GoType.any.typeName = "<nil>" ∧
      (∀ r0 : CallToolRequest, r0.Params.Arguments.lookup p = none →
        T.assert (mapIndex r0.Params.Arguments p).1 = none ∧
        (requiredParam T r0 p).2 = some (Errorf "missing required parameter: " p)) ∧
      (∀ r0 : CallToolRequest,
        r0.Params.Arguments.lookup p = some (GoType.bool.toValue GoType.bool.zero) →
        (requiredParam GoType.string r0 p).2 = some (GoError.errorString
          ("parameter " ++ p ++ " is not of type " ++ "string"))) := by
  have e := requiredParam_mismatch T r p v hv ht
  refine ⟨e, ?_, T.assert_nil, ?_, fun _ => rfl, rfl, rfl, ?_, ?_⟩
  · rw [e]
    simp only [Option.map_some', GoError.Error, ne_eq, Option.some.injEq]
    exact fun h => missing_ne_mismatch p T.typeName h.symm
  · intro hT w hw
    cases hA : T.assert w with
    | none => rfl
    | some a =>
      have := (isDynTypeOf_iff T hT w).2 ⟨a, hA⟩
      rw [hw] at this
      cases this
  · intro r0 h0
    refine ⟨?_, by rw [requiredParam_absent T r0 p h0]⟩
    simp only [mapIndex, h0]
    exact T.assert_nil
  · intro r0 h0
    rw [requiredParam_mismatch GoType.string r0 p _ h0 rfl]

/-- Witness of C3: a JSON number stored under "namespace", asked for as a
string. -/
theorem C3_type_mismatch_witness :
    requiredParam GoType.string (mkRequest "list_pods" [("namespace", GoValue.float64 0)])
        "namespace"
      = ("", some (GoError.errorString "parameter namespace is not of type string")) :=
  (C3_assertion_failure_is_type_mismatch GoType.string
    (mkRequest "list_pods" [("namespace", GoValue.float64 0)])
    "namespace" (GoValue.float64 0) rfl rfl).1

/-- Counterexample to C3 as stated: at `T = any` with the string "x" stored
under "p", the stored value is not of dynamic type `any` (no value is), yet the
call does not fail: it returns the stored value and a nil error. -/
theorem C3_counterexample_any_string :
    (mkRequest "t" [("p", GoValue.string "x")]).Params.Arguments.lookup "p"
        = some (GoValue.string "x") ∧
      GoType.any.isDynTypeOf (GoValue.string "x") = false ∧
      requiredParam GoType.any (mkRequest "t" [("p", GoValue.string "x")]) "p"
        = (GoValue.string "x", none) := by
  refine ⟨rfl, rfl, rfl⟩

/-- C8, as the code has it: `requiredParam[T](r, p)` succeeds (nil error) if
and only if `p` is present with a value that passes the type assertion to `T`
and differs (Go `!=`) from the zero value of `T`; for a non-interface `T` that
is: a value of dynamic type `T` that differs from the zero value; on success the
returned value is exactly the argument stored under `p`; and exactly one of the
three outcomes, missing-parameter error, type-mismatch error, success,
occurs. -/
theorem C8_success_iff_asserted_nonzero (T : GoType) (r : CallToolRequest) (p : String) :
    ((requiredParam T r p).2 = none ↔
      ∃ v a, r.Params.Arguments.lookup p = some v ∧ T.assert v = some a ∧
        T.eq a T.zero = false) ∧
    (T.isInterface = false →
      ((requiredParam T r p).2 = none ↔
        ∃ v a, r.Params.Arguments.lookup p = some v ∧ T.isDynTypeOf v = true ∧
          T.assert v = some a ∧ T.eq a T.zero = false)) ∧
    ((requiredParam T r p).2 = none →
      r.Params.Arguments.lookup p = some (T.toValue (requiredParam T r p).1)) ∧
    (((requiredParam T r p).2.map GoError.Error = some ("missing required parameter: " ++ p) ∨
      (requiredParam T r p).2.map GoError.Error
        = some ("parameter " ++ p ++ " is not of type " ++ T.typeName) ∨
      (requiredParam T r p).2 = none) ∧
     ¬ ((requiredParam T r p).2.map GoError.Error = some ("missing required parameter: " ++ p) ∧
        (requiredParam T r p).2.map GoError.Error
          = some ("parameter " ++ p ++ " is not of type " ++ T.typeName)) ∧
     ¬ ((requiredParam T r p).2.map GoError.Error = some ("missing required parameter: " ++ p) ∧
        (requiredParam T r p).2 = none) ∧
     ¬ ((requiredParam T r p).2.map GoError.Error
          = some ("parameter " ++ p ++ " is not of type " ++ T.typeName) ∧
        (requiredParam T r p).2 = none)) := by
  refine ⟨requiredParam_ok_iff T r p, ?_, ?_, ?_⟩
  · intro hT
    rw [requiredParam_ok_iff T r p]
    constructor
    · rintro ⟨v, a, h, ha, hz⟩
      exact ⟨v, a, h, (isDynTypeOf_iff T hT v).2 ⟨a, ha⟩, ha, hz⟩
    · rintro ⟨v, a, h, _, ha, hz⟩
      exact ⟨v, a, h, ha, hz⟩
  · intro hn
    obtain ⟨v, a, h, ha, hz⟩ := (requiredParam_ok_iff T r p).1 hn
    rw [requiredParam_ok T r p v a h ha hz, h, T.toValue_of_assert v a ha]
  · have hne := missing_ne_mismatch p T.typeName
    have hne2 : ¬ ("parameter " ++ p ++ " is not of type " ++ T.typeName
        = "missing required parameter: " ++ p) := fun h => hne h.symm
    rcases requiredParam_cases T r p with
      ⟨_, e⟩ | ⟨_, _, _, e⟩ | ⟨_, _, _, _, _, e⟩ | ⟨_, _, _, _, _, e⟩ <;>
      simp [e, Errorf, GoError.Error, hne, hne2]

/-- Witness of C8: a non-empty namespace, spaces included, is what the call
returns. -/
theorem C8_success_witness :
    (mkRequest "list_pods" [("namespace", GoValue.string " kube-system ")]).Params.Arguments.lookup
        "namespace"
      = some (GoType.string.toValue (requiredParam GoType.string
          (mkRequest "list_pods" [("namespace", GoValue.string " kube-system ")]) "namespace").1) :=
  (C8_success_iff_asserted_nonzero GoType.string
    (mkRequest "list_pods" [("namespace", GoValue.string " kube-system ")]) "namespace").2.2.1
    (by decide)

/-- Counterexample to C8 as stated: at `T = any` with `true` stored under "p"
the call succeeds, although the stored value is not of dynamic type `any`. -/
theorem C8_counterexample_any_bool :
    (requiredParam GoType.any (mkRequest "t" [("p", GoValue.bool true)]) "p").2 = none ∧
      ¬ ∃ v, (mkRequest "t" [("p", GoValue.bool true)]).Params.Arguments.lookup "p" = some v ∧
        GoType.any.isDynTypeOf v = true := by
  refine ⟨rfl, ?_⟩
  rintro ⟨v, _, h⟩
  simp [GoType.isDynTypeOf] at h

/-- A present, non-empty string namespace passes `requiredParam`. -/
theorem requiredParam_namespace_ok (request : CallToolRequest) (ns : String)
    (hns : request.Params.Arguments.lookup "namespace" = some (GoValue.string ns))
    (hne : ns ≠ "") :
    requiredParam GoType.string request "namespace" = (ns, none) :=
  requiredParam_ok GoType.string request "namespace" (GoValue.string ns) ns hns rfl
    (by simpa using hne)

/-- C4, as the code has it: with a valid non-empty string namespace, a failure
of the client getter or of the remote list call makes the handler return a nil
result together with a non-nil handler-level error that wraps the failure with
context ("failed to get Kubernetes client: ", "failed to list pods: ",
"failed to list services: " followed by the cause's message, the cause reachable
by unwrapping); no tool-level error result is built. -/
theorem C4_backend_failure_is_handler_error (getClient : GetClientFn) (ctx : Context)
    (request : CallToolRequest) (ns : String)
    (hns : request.Params.Arguments.lookup "namespace" = some (GoValue.string ns))
    (hne : ns ≠ "") :
    (∀ e, getClient ctx = .error e →
      (ListPods getClient).2 ctx request =
          ⟨none, some (GoError.wrapError ("failed to get Kubernetes client: " ++ e.Error) e),
            [.getClient]⟩ ∧
        (ListServices getClient).2 ctx request =
          ⟨none, some (GoError.wrapError ("failed to get Kubernetes client: " ++ e.Error) e),
            [.getClient]⟩) ∧
    (∀ client e, getClient ctx = .ok client → client.listPods ns = .error e →
      (ListPods getClient).2 ctx request =
        ⟨none, some (GoError.wrapError ("failed to list pods: " ++ e.Error) e),
          [.getClient, .listPods ns]⟩) ∧
    (∀ client e, getClient ctx = .ok client → client.listServices ns = .error e →
      (ListServices getClient).2 ctx request =
        ⟨none, some (GoError.wrapError ("failed to list services: " ++ e.Error) e),
          [.getClient, .listServices ns]⟩) := by
  have e0 := requiredParam_namespace_ok request ns hns hne
  refine ⟨?_, ?_, ?_⟩
  · intro e he
    constructor
    · simp only [ListPods, listPodsHandler, e0, he, ErrorfW]
    · simp only [ListServices, listServicesHandler, e0, he, ErrorfW]
  · intro client e hc he
    simp only [ListPods, listPodsHandler, e0, hc, he, ErrorfW]
  · intro client e hc he
    simp only [ListServices, listServicesHandler, e0, hc, he, ErrorfW]

/-- Witness of C4: namespace "default", a client whose list calls are refused. -/
theorem C4_backend_failure_witness :
    (ListPods (fun _ => .ok failingClient)).2 ⟨false⟩
        (mkRequest "list_pods" [("namespace", GoValue.string "default")]) =
      ⟨none, some (GoError.wrapError "failed to list pods: connection refused"
          (GoError.errorString "connection refused")),
        [.getClient, .listPods "default"]⟩ :=
  (C4_backend_failure_is_handler_error (fun _ => .ok failingClient) ⟨false⟩
    (mkRequest "list_pods" [("namespace", GoValue.string "default")]) "default" rfl
    (by decide)).2.1 failingClient (GoError.errorString "connection refused") rfl rfl

/-- Counterexample to C4 as stated: with namespace "default" and a client getter
that fails, the `list_pods` handler returns no result at all (so no result marked
as an error) and a handler-level error instead. -/
theorem C4_counterexample_nil_result :
    ((ListPods (fun _ => .error (GoError.errorString "no kubeconfig"))).2 ⟨false⟩
        (mkRequest "list_pods" [("namespace", GoValue.string "default")])).result = none ∧
      ((ListPods (fun _ => .error (GoError.errorString "no kubeconfig"))).2 ⟨false⟩
        (mkRequest "list_pods" [("namespace", GoValue.string "default")])).err
        = some (GoError.wrapError "failed to get Kubernetes client: no kubeconfig"
            (GoError.errorString "no kubeconfig")) ∧
      ¬ ∃ res : CallToolResult,
        ((ListPods (fun _ => .error (GoError.errorString "no kubeconfig"))).2 ⟨false⟩
          (mkRequest "list_pods" [("namespace", GoValue.string "default")])).result = some res ∧
        res.IsError = true := by
  refine ⟨by decide, by decide, ?_⟩
  rintro ⟨res, h, _⟩
  have hn : ((ListPods (fun _ => .error (GoError.errorString "no kubeconfig"))).2 ⟨false⟩
      (mkRequest "list_pods" [("namespace", GoValue.string "default")])).result = none := by
    decide
  rw [hn] at h
  cases h

/-! ## Lemmas about the two run functions -/

/-- `InitToolsets` never returns a nil registry together with a nil error, so
the `nilDeref` branch of the run functions is not reached. -/
theorem InitToolsets_not_nil_nil (passedToolsets : List String) (readonly : Bool)
    (getClient : GetClientFn) :
    InitToolsets passedToolsets readonly getClient ≠ (none, none) := by
  unfold InitToolsets
  rcases (initRegistry readonly getClient).EnableToolsets passedToolsets with ⟨g, _ | e⟩ <;>
    simp

/-- What a successful startup means for the two calls the run makes first. -/
theorem startupSucceeded_cases (env : ProcEnv) (cfg : runConfig)
    (h : startupSucceeded env cfg = true) :
    ∃ clientset tsg, createKubernetesClient env = .ok clientset ∧
      InitToolsets cfg.enabledToolsets cfg.readOnly (fun _ => .ok clientset)
        = (some tsg, none) := by
  unfold startupSucceeded at h
  cases hc : createKubernetesClient env with
  | error e => simp [hc] at h
  | ok c =>
    simp only [hc] at h
    rcases hi : InitToolsets cfg.enabledToolsets cfg.readOnly (fun _ => .ok c)
      with ⟨_ | tsg, _ | e⟩
    · simp [hi] at h
    · simp [hi] at h
    · exact ⟨c, tsg, rfl, hi⟩
    · simp [hi] at h

/-- After a successful startup, the error `runStdioServer` returns is decided
by the case its `select` commits to. -/
theorem runStdioServer_err (env : ProcEnv) (cfg : runConfig) (sel : SelectCase)
    (h : startupSucceeded env cfg = true) :
    (runStdioServer env cfg sel).err =
      match sel with
      | .ctxDone => none
      | .errC e => e.map (ErrorfW "error in server: ") := by
  obtain ⟨c, tsg, hc, hi⟩ := startupSucceeded_cases env cfg h
  simp only [runStdioServer, hc, hi]
  rcases sel with _ | (_ | e) <;> rfl

/-- After a successful startup, the error `runSSEServer` returns is decided by
the case its `select` commits to. -/
theorem runSSEServer_err (env : ProcEnv) (cfg : runConfig) (sel : SelectCase)
    (h : startupSucceeded env cfg = true) :
    (runSSEServer env cfg sel).err =
      match sel with
      | .ctxDone => none
      | .errC e => e.map (ErrorfW "error in server: ") := by
  obtain ⟨c, tsg, hc, hi⟩ := startupSucceeded_cases env cfg h
  simp only [runSSEServer, hc, hi]
  rcases sel with _ | (_ | e) <;> rfl

/-! ## Claims about the transport supervisor -/

/-- C5: for both transports, once startup has succeeded, if the case the
foreground `select` commits to is `ctx.Done()` then the run returns nil.  That
case is ready as soon as the signal has fired, whatever the error channel holds:
nothing (the serve loop still runs, and is not waited for), a nil, or an
error. -/
theorem C5_cancellation_returns_nil (env : ProcEnv) (cfg : runConfig)
    (h : startupSucceeded env cfg = true) (w : WaitState) (hw : w.ctxDone = true) :
    SelectCase.ctxDone ∈ readyCases w ∧
      (runStdioServer env cfg .ctxDone).err = none ∧
      (runSSEServer env cfg .ctxDone).err = none := by
  refine ⟨?_, ?_, ?_⟩
  · simp [readyCases, hw]
  · rw [runStdioServer_err env cfg _ h]
  · rw [runSSEServer_err env cfg _ h]

/-- Witness of C5: the signal has fired and the serve loop has not sent
anything. -/
theorem C5_cancellation_witness :
    SelectCase.ctxDone ∈ readyCases ⟨true, none⟩ ∧
      (runStdioServer okEnv ⟨false, ["all"]⟩ .ctxDone).err = none ∧
      (runSSEServer okEnv ⟨false, ["all"]⟩ .ctxDone).err = none :=
  C5_cancellation_returns_nil okEnv ⟨false, ["all"]⟩ (by decide) ⟨true, none⟩ rfl

/-- C6: for both transports, once startup has succeeded, if the case the
foreground `select` commits to is the receive of the serve loop's result `e`,
the run returns a non-nil error if and only if `e` is non-nil; for a non-nil `e`
the returned error has the message "error in server: " followed by the message
of `e` and unwraps to `e`; for a nil `e` the run returns nil. -/
theorem C6_serve_result_decides (env : ProcEnv) (cfg : runConfig)
    (h : startupSucceeded env cfg = true) (e : Option GoError) :
    (((runStdioServer env cfg (.errC e)).err ≠ none ↔ e ≠ none) ∧
      ((runSSEServer env cfg (.errC e)).err ≠ none ↔ e ≠ none)) ∧
    (∀ e0, e = some e0 →
      (runStdioServer env cfg (.errC e)).err
          = some (GoError.wrapError ("error in server: " ++ e0.Error) e0) ∧
        (runSSEServer env cfg (.errC e)).err
          = some (GoError.wrapError ("error in server: " ++ e0.Error) e0) ∧
        (GoError.wrapError ("error in server: " ++ e0.Error) e0).Error
          = "error in server: " ++ e0.Error ∧
        (GoError.wrapError ("error in server: " ++ e0.Error) e0).Unwrap = some e0) ∧
    (e = none →
      (runStdioServer env cfg (.errC e)).err = none ∧
        (runSSEServer env cfg (.errC e)).err = none) := by
  rw [runStdioServer_err env cfg _ h, runSSEServer_err env cfg _ h]
  cases e with
  | none => simp
  | some e0 => simp [ErrorfW, GoError.Error, GoError.Unwrap]

/-- Witness of C6: the serve loop ends with "address already in use". -/
theorem C6_serve_result_witness :
    (runSSEServer okEnv ⟨false, ["all"]⟩
        (.errC (some (GoError.errorString "address already in use")))).err
      = some (GoError.wrapError "error in server: address already in use"
          (GoError.errorString "address already in use")) :=
  ((C6_serve_result_decides okEnv ⟨false, ["all"]⟩ (by decide)
    (some (GoError.errorString "address already in use"))).2.1
      (GoError.errorString "address already in use") rfl).2.1

/-- C7: when `EnableToolsets` returns an error on the registry `InitToolsets`
has built, `InitToolsets` returns that error unchanged together with a nil
registry, and `runStdioServer` / `runSSEServer` (the client having been built)
return it wrapped as "failed to initialize toolsets: " followed by its message,
with an empty trace: no tool is registered and no serve loop is started. -/
theorem C7_enable_error_propagates (passedToolsets : List String) (readonly : Bool)
    (getClient : GetClientFn) (e : GoError)
    (h : ((initRegistry readonly getClient).EnableToolsets passedToolsets).2 = some e) :
    InitToolsets passedToolsets readonly getClient = (none, some e) ∧
    (∀ (env : ProcEnv) (cfg : runConfig) (sel : SelectCase) (clientset : Clientset),
      createKubernetesClient env = .ok clientset →
      cfg.enabledToolsets = passedToolsets → cfg.readOnly = readonly →
      getClient = (fun _ => .ok clientset) →
      runStdioServer env cfg sel =
          ⟨some (GoError.wrapError ("failed to initialize toolsets: " ++ e.Error) e), []⟩ ∧
        runSSEServer env cfg sel =
          ⟨some (GoError.wrapError ("failed to initialize toolsets: " ++ e.Error) e), []⟩) := by
  have hi : InitToolsets passedToolsets readonly getClient = (none, some e) := by
    unfold InitToolsets
    rcases hE : (initRegistry readonly getClient).EnableToolsets passedToolsets with ⟨g, err⟩
    rw [hE] at h
    simp only at h
    subst h
    rfl
  refine ⟨hi, ?_⟩
  intro env cfg sel clientset hc h1 h2 h3
  subst h1 h2 h3
  simp only [runStdioServer, runSSEServer, hc, hi, ErrorfW, and_self]

/-- Witness of C7: the requested list names "pods" and a toolset that does not
exist. -/
theorem C7_enable_error_witness :
    InitToolsets ["pods", "nope"] true (fun _ => .ok okClient)
      = (none, some (GoError.errorString "unknown toolset: nope")) :=
  (C7_enable_error_propagates ["pods", "nope"] true (fun _ => .ok okClient)
    (GoError.errorString "unknown toolset: nope") (by decide)).1

/-- C9: with the foreground `select` committing to any one of the ready cases,
after a successful startup the run returns a non-nil error only if the serve
loop has posted a non-nil error; the converse fails: in the state where the
serve loop has posted a non-nil error and the signal has fired as well, the
cancellation case is ready, and committing to it the run returns nil. -/
theorem C9_posted_error_can_be_dropped (env : ProcEnv) (cfg : runConfig)
    (h : startupSucceeded env cfg = true) :
    (∀ (w : WaitState) (c : SelectCase), c ∈ readyCases w →
      ((runStdioServer env cfg c).err ≠ none ∨ (runSSEServer env cfg c).err ≠ none) →
      ∃ e, w.errC = some (some e)) ∧
    (∃ (w : WaitState) (e : GoError), w.errC = some (some e) ∧ w.ctxDone = true ∧
      SelectCase.errC (some e) ∈ readyCases w ∧ SelectCase.ctxDone ∈ readyCases w ∧
      (runStdioServer env cfg .ctxDone).err = none ∧
      (runSSEServer env cfg .ctxDone).err = none ∧
      (runStdioServer env cfg (.errC (some e))).err ≠ none) := by
  constructor
  · intro w c hc herr
    rw [runStdioServer_err env cfg _ h, runSSEServer_err env cfg _ h] at herr
    rcases c with _ | (_ | e)
    · simp at herr
    · simp at herr
    · refine ⟨e, ?_⟩
      rcases w with ⟨d, _ | ch⟩
      · cases d <;> simp [readyCases] at hc
      · cases d <;> simp [readyCases] at hc <;> simp [hc]
  · refine ⟨⟨true, some (some (GoError.errorString "listen failed"))⟩,
      GoError.errorString "listen failed", rfl, rfl, by decide, by decide, ?_, ?_, ?_⟩
    · rw [runStdioServer_err env cfg _ h]
    · rw [runSSEServer_err env cfg _ h]
    · rw [runStdioServer_err env cfg _ h]
      simp

/-- Witness of C9: a started stdio run returning an error can only have read
it from the error channel. -/
theorem C9_posted_error_witness :
    ∃ e, (WaitState.mk true (some (some (GoError.errorString "listen failed")))).errC
      = some (some e) :=
  (C9_posted_error_can_be_dropped okEnv ⟨false, ["all"]⟩ (by decide)).1
    ⟨true, some (some (GoError.errorString "listen failed"))⟩
    (.errC (some (GoError.errorString "listen failed"))) (by decide)
    (Or.inl (by decide))

/-! ## The registry `InitToolsets` builds -/

/-- The registry before enablement, written out. -/
theorem initRegistry_eq (readonly : Bool) (getClient : GetClientFn) :
    initRegistry readonly getClient =
      { toolsets :=
          [{ name := "pods", description := "Kubernetes Pod related tools",
             readTools := [⟨listPodsTool, listPodsHandler getClient⟩], writeTools := [],
             enabled := false },
           { name := "services", description := "Kubernetes Service related tools",
             readTools := [⟨listServicesTool, listServicesHandler getClient⟩],
             writeTools := [], enabled := false }]
        readOnly := readonly } := by
  rfl

/-- `EnableToolsets` either fails and leaves the registry as it is, or only
sets enabled flags. -/
theorem EnableToolsets_cases (tsg : ToolsetGroup) (names : List String) :
    (∃ e, tsg.EnableToolsets names = (tsg, some e)) ∨
    (∃ f : Toolset → Bool, tsg.EnableToolsets names =
      ({ tsg with toolsets := tsg.toolsets.map (fun ts =>
          if f ts then { ts with enabled := true } else ts) }, none)) := by
  unfold ToolsetGroup.EnableToolsets
  cases names.find? (fun n => n != "all" && !tsg.hasToolset n) with
  | some bad => exact Or.inl ⟨_, rfl⟩
  | none => exact Or.inr ⟨fun ts => names.contains "all" || names.contains ts.name, rfl⟩

/-- Whether `EnableToolsets` fails does not depend on the read-only flag. -/
theorem EnableToolsets_readOnly (ts : List Toolset) (ro : Bool) (names : List String) :
    (ToolsetGroup.EnableToolsets ⟨ts, ro⟩ names).2
        = (ToolsetGroup.EnableToolsets ⟨ts, true⟩ names).2 ∧
      (ToolsetGroup.EnableToolsets ⟨ts, ro⟩ names).1.toolsets
        = (ToolsetGroup.EnableToolsets ⟨ts, true⟩ names).1.toolsets := by
  unfold ToolsetGroup.EnableToolsets
  simp only [ToolsetGroup.hasToolset]
  cases names.find? (fun n => n != "all" && !ts.any (fun t => t.name == n)) <;> simp

/-- The shape the claims about the registry speak of: two toolsets, "pods" then
"services", each with its one read tool, declared read-only, and no write
tool. -/
def registryShape (tsg : ToolsetGroup) : Prop :=
  tsg.toolsets.map (fun ts => ts.name) = ["pods", "services"] ∧
    tsg.toolsets.map (fun ts => ts.readTools.map (fun st => st.tool))
      = [[listPodsTool], [listServicesTool]] ∧
    tsg.toolsets.map (fun ts => ts.writeTools.length) = [0, 0]

/-- A registry of that shape has the same active tools under either value of
the read-only flag. -/
theorem registryShape_active (ts : List Toolset) (ro : Bool)
    (h : ts.map (fun t => t.writeTools.length) = [0, 0]) :
    ToolsetGroup.CollectActiveTools ⟨ts, ro⟩ = ToolsetGroup.CollectActiveTools ⟨ts, false⟩ := by
  rcases ts with _ | ⟨a, _ | ⟨b, _ | ⟨c, rest⟩⟩⟩
  · rfl
  · simp at h
  · simp only [List.map_cons, List.map_nil, List.cons.injEq, List.length_eq_zero, and_true] at h
    cases ro <;>
      simp [ToolsetGroup.CollectActiveTools, Toolset.activeTools, h.1, h.2]
  · simp at h

/-- What `InitToolsets` returns on success has the shape. -/
theorem InitToolsets_shape (passedToolsets : List String) (readonly : Bool)
    (getClient : GetClientFn) (tsg : ToolsetGroup)
    (h : InitToolsets passedToolsets readonly getClient = (some tsg, none)) :
    registryShape tsg ∧ tsg.readOnly = readonly := by
  unfold InitToolsets at h
  rcases EnableToolsets_cases (initRegistry readonly getClient) passedToolsets
    with ⟨e, he⟩ | ⟨f, hf⟩
  · rw [he] at h
    simp at h
  · rw [hf] at h
    simp only [Prod.mk.injEq, Option.some.injEq, and_true] at h
    subst h
    rw [initRegistry_eq]
    refine ⟨⟨?_, ?_, ?_⟩, rfl⟩ <;>
      · simp only [List.map_cons, List.map_nil]
        split_ifs <;> rfl

/-- C10: for every requested toolset list and either value of the read-only
flag, the registry `InitToolsets` builds holds exactly two toolsets, "pods" then
"services" (distinct names), each with exactly one read tool (`list_pods`,
`list_services`, both with `ReadOnlyHint = true`) and no write tool; the same
holds of the registry it returns; so the read-only policy leaves out no tool,
and the error and the active tools are the same for `readOnly = true` and
`readOnly = false`. -/
theorem C10_registry_two_read_only_toolsets (passedToolsets : List String) (readonly : Bool)
    (getClient : GetClientFn) :
    registryShape (initRegistry readonly getClient) ∧
    ((initRegistry readonly getClient).toolsets.map (fun ts => ts.name)).Nodup ∧
    listPodsTool.Name = "list_pods" ∧ listServicesTool.Name = "list_services" ∧
    listPodsTool.Annotations.ReadOnlyHint = true ∧
    listServicesTool.Annotations.ReadOnlyHint = true ∧
    (∀ tsg, InitToolsets passedToolsets readonly getClient = (some tsg, none) →
      registryShape tsg ∧
      tsg.CollectActiveTools = ({ tsg with readOnly := false }).CollectActiveTools ∧
      tsg.CollectActiveTools = ({ tsg with readOnly := true }).CollectActiveTools) ∧
    (InitToolsets passedToolsets true getClient).2
      = (InitToolsets passedToolsets false getClient).2 ∧
    (InitToolsets passedToolsets true getClient).1.map ToolsetGroup.CollectActiveTools
      = (InitToolsets passedToolsets false getClient).1.map
          ToolsetGroup.CollectActiveTools := by
  refine ⟨?_, ?_, rfl, rfl, rfl, rfl, ?_, ?_⟩
  · rw [initRegistry_eq]
    exact ⟨rfl, rfl, rfl⟩
  · rw [initRegistry_eq]
    simp
  · intro tsg h
    obtain ⟨hs, _⟩ := InitToolsets_shape passedToolsets readonly getClient tsg h
    rcases tsg with ⟨ts, ro⟩
    refine ⟨hs, ?_, ?_⟩
    · exact registryShape_active ts ro hs.2.2
    · rw [registryShape_active ts ro hs.2.2, registryShape_active ts true hs.2.2]
  · obtain ⟨L, hL⟩ : ∃ L, ∀ ro, initRegistry ro getClient = ⟨L, ro⟩ :=
      ⟨_, fun ro => initRegistry_eq ro getClient⟩
    have hr := EnableToolsets_readOnly L false passedToolsets
    have hsT := InitToolsets_shape passedToolsets true getClient
    unfold InitToolsets at hsT ⊢
    rw [hL] at hsT ⊢
    rw [hL]
    rcases hX : ToolsetGroup.EnableToolsets ⟨L, true⟩ passedToolsets with ⟨⟨xt, xro⟩, xe⟩
    rcases hY : ToolsetGroup.EnableToolsets ⟨L, false⟩ passedToolsets with ⟨⟨yt, yro⟩, ye⟩
    rw [hX, hY] at hr
    rw [hX] at hsT
    simp only at hr
    obtain ⟨rfl, rfl⟩ := hr
    cases ye with
    | some e => exact ⟨rfl, rfl⟩
    | none =>
      refine ⟨rfl, ?_⟩
      have hs := (hsT ⟨yt, xro⟩ rfl).1
      simp only [Option.map_some']
      rw [registryShape_active yt xro hs.2.2, registryShape_active yt yro hs.2.2]

/-- Witness of C10: with the default list ("all") the returned registry has the
shape, and its active tools are the two read tools in registration order. -/
theorem C10_registry_witness :
    registryShape ((initRegistry false (fun _ => .ok okClient)).EnableToolsets ["all"]).1 ∧
      (((initRegistry false (fun _ => .ok okClient)).EnableToolsets
          ["all"]).1.CollectActiveTools.map (fun st => st.tool.Name))
        = ["list_pods", "list_services"] :=
  ⟨((C10_registry_two_read_only_toolsets ["all"] false (fun _ => .ok okClient)).2.2.2.2.2.2.1
      _ rfl).1, by decide⟩

end K8sMcp
